import Mathlib

/-!
Verification of the OpenLP MCP plugin's cross-thread request/response bridge
(`src/worker.py`, `src/tools.py`, `src/conversion.py`, `src/url_utils.py`).

The Python source is shallowly embedded: each handler of `MCPWorker` becomes a
Lean function over an explicit environment describing the external
collaborators (service manager, plugin manager, theme manager, file system),
Python exceptions become `Except PyExc`, the one-slot result channel
(`threading.Event` plus `current_result`) becomes an explicit wait model, and
the Qt-signal traces of the MCP tools become step lists.
-/

/-- A Python exception, reduced to the message string that `str(e)` yields. -/
abbrev PyExc := String

/-- A value emitted through `operation_completed.emit`: either a plain string
or a list of dicts (as `get_service_items` emits), or a list of strings (as
`list_themes` emits). -/
inductive PyVal
  | s (v : String)
  | i (v : Int)
  deriving DecidableEq

/-- A Python dict with string keys, as built by `get_service_items`. -/
abbrev PyDict := List (String × PyVal)

/-- The payloads handlers pass to `operation_completed.emit`. -/
inductive RValue
  | str (v : String)
  | records (vs : List PyDict)
  | strs (vs : List String)
  deriving DecidableEq

/-- Keys of a Python dict, in insertion order. -/
def dictKeys (d : PyDict) : List String := d.map Prod.fst

/-- `d[k]` lookup on an embedded Python dict. -/
def dictGet (d : PyDict) (k : String) : Option PyVal :=
  (d.find? (fun p => p.1 = k)).map Prod.snd

/-! ## Path helpers (`pathlib.Path.name` / `.suffix` / `.stem`) -/

/-- Python's `str.lower` (over the character list, so that proofs can
evaluate it). -/
def pyLower (s : String) : String := String.mk (s.data.map Char.toLower)

/-- `Path(p).name`: the final path component (the characters after the last
slash). -/
def pyName (p : String) : String :=
  String.mk ((p.data.reverse.takeWhile (fun c => c ≠ '/')).reverse)

/-- `Path(p).suffix`: the final component's extension including the dot;
empty when the name has no dot, starts with its only dot, or ends in a dot
(mirrors CPython's `0 < i < len(name) - 1` rule on `name.rfind('.')`). -/
def pySuffix (p : String) : String :=
  let n := pyName p
  let cs := n.data
  match cs.reverse.findIdx? (fun c => c = '.') with
  | none => ""
  | some k =>
    let i := cs.length - 1 - k
    if 0 < i ∧ i < cs.length - 1 then String.mk (cs.drop i) else ""

/-- `Path(p).stem`: the final component without its suffix. -/
def pyStem (p : String) : String :=
  let cs := (pyName p).data
  String.mk (cs.take (cs.length - (pySuffix p).data.length))

/-! ## `url_utils.is_url` -/

/-- Characters allowed in a URL scheme after the initial letter. -/
def isSchemeChar (c : Char) : Bool := c.isAlphanum || c = '+' || c = '-' || c = '.'

/-- The scheme `urlparse` extracts: the text before the first colon, lowered,
when it is a letter followed by scheme characters; "" otherwise. -/
def schemeOf (s : String) : String :=
  if s.data.any (fun c => c = ':') then
    let pre := String.mk (s.data.takeWhile (fun c => c ≠ ':'))
    if pre ≠ "" ∧ (pre.data.headD 'a').isAlpha ∧ pre.data.all isSchemeChar then
      pyLower pre
    else ""
  else ""

/-- `url_utils.is_url`: whether the parsed scheme is http, https, ftp or ftps. -/
def is_url (path_or_url : String) : Bool :=
  ["http", "https", "ftp", "ftps"].contains (schemeOf path_or_url)

/-! ## Extension tables of `MCPWorker.add_media` and `tools.add_media_to_service` -/

/-- `image_extensions` in `MCPWorker.add_media`. -/
def image_extensions : List String :=
  [".jpg", ".jpeg", ".png", ".bmp", ".gif", ".tiff", ".tif", ".webp", ".svg"]

/-- `video_extensions` in `MCPWorker.add_media`. -/
def video_extensions : List String :=
  [".mp4", ".avi", ".mov", ".mkv", ".wmv", ".flv", ".webm", ".m4v", ".3gp"]

/-- `audio_extensions` in `MCPWorker.add_media`. -/
def audio_extensions : List String :=
  [".mp3", ".wav", ".ogg", ".flac", ".aac", ".m4a", ".wma"]

/-- `presentation_extensions` in `MCPWorker.add_media`. -/
def presentation_extensions : List String :=
  [".pdf", ".pptx", ".ppt", ".pps", ".ppsx", ".odp"]

/-- The PowerPoint extension list shared by `tools.add_media_to_service` and
`MCPWorker._add_presentation`. -/
def powerpoint_extensions : List String :=
  [".pptx", ".ppt", ".pps", ".ppsx"]

/-- Codepoint-lexicographic comparison of character lists (Python's `str`
ordering over the ASCII extension strings). -/
def charListLe : List Char → List Char → Bool
  | [], _ => true
  | _ :: _, [] => false
  | a :: as, b :: bs =>
    if a.toNat < b.toNat then true
    else if b.toNat < a.toNat then false
    else charListLe as bs

/-- Python's `<=` on strings. -/
def pyStrLe (a b : String) : Bool := charListLe a.data b.data

/-- Insert a string into a sorted list (`sorted` building block). -/
def insertSorted (x : String) : List String → List String
  | [] => [x]
  | y :: ys => if pyStrLe x y then x :: y :: ys else y :: insertSorted x ys

/-- Python's `sorted` on a list of strings (insertion sort, lexicographic). -/
def pySorted (l : List String) : List String := l.foldr insertSorted []

/-- Python's `", ".join(...)`. -/
def joinComma (l : List String) : String := String.intercalate ", " (pySorted l)

/-- The `supported` string `add_media` builds for its unsupported-format reply. -/
def supported_formats_str : String :=
  "images (" ++ joinComma image_extensions ++ "), videos (" ++ joinComma video_extensions ++
    "), audio (" ++ joinComma audio_extensions ++ "), presentations (" ++
    joinComma presentation_extensions ++ ")"

/-- The full unsupported-format message of `add_media`. -/
def unsupported_msg (extension : String) : String :=
  "Unsupported format: " ++ extension ++ ". Supported: " ++ supported_formats_str

/-! ## The result channel (`result_ready : threading.Event`, `current_result`) -/

/-- Outcome of `wait_for_result` / `wait_for_result_long`: the stored result,
or the raised `TimeoutError`. -/
inductive WaitOutcome (α : Type)
  | ok (v : α)
  | timeoutError (msg : String)
  deriving DecidableEq

/-- `threading.Event.wait(timeout)` observed against the moment the producer
calls `set()`: `arrival` is the time of the `set()` relative to the start of
the wait (`none` when no `set()` ever happens); the wait succeeds exactly when
a `set()` occurs within `timeout`. -/
def eventWait (timeout : ℚ) (arrival : Option ℚ) : Bool :=
  match arrival with
  | some t => decide (t ≤ timeout)
  | none => false

/-- `MCPWorker.wait_for_result(timeout=10)`: clears the event, waits, and
returns `current_result` (`stored`) on signal or raises `TimeoutError`. -/
def wait_for_result (arrival : Option ℚ) (stored : RValue) (timeout : ℚ := 10) :
    WaitOutcome RValue :=
  if eventWait timeout arrival then .ok stored else .timeoutError "Operation timed out"

/-- `MCPWorker.wait_for_result_long(timeout=90)`. -/
def wait_for_result_long (arrival : Option ℚ) (stored : RValue) (timeout : ℚ := 90) :
    WaitOutcome RValue :=
  if eventWait timeout arrival then .ok stored else .timeoutError "Long operation timed out"

/-- An error as seen by the caller of an MCP tool: either the `TimeoutError`
of the wait, or any other Python exception. -/
inductive PyError
  | timeout (msg : String)
  | other (msg : String)
  deriving DecidableEq

/-- The outcome of one tool call (`emit` + `wait_for_result`): `stored` is the
value the handler (or the deferred conversion callback) signals, `arrival` the
time that signal arrives. -/
def submitResult (stored : RValue) (arrival : Option ℚ) (timeout : ℚ) :
    Except PyError RValue :=
  if eventWait timeout arrival then .ok stored else .error (.timeout "Operation timed out")

/-! ## Step traces of the MCP tools (`tools.py`) -/

/-- One observable step of an MCP tool body: the `result_ready.clear()` inside
the wait helpers, the `*_requested.emit(...)` handing the operation to the
main thread, and the blocking `result_ready.wait(timeout)`. -/
inductive BridgeStep
  | clearChannel
  | dispatchOp (signal_name : String)
  | blockAwait (timeout : ℚ)
  deriving DecidableEq

/-- Steps of `wait_for_result`: clear the event, then block on it. -/
def wait_for_result_trace (timeout : ℚ := 10) : List BridgeStep :=
  [.clearChannel, .blockAwait timeout]

/-- Steps of `wait_for_result_long`. -/
def wait_for_result_long_trace (timeout : ℚ := 90) : List BridgeStep :=
  [.clearChannel, .blockAwait timeout]

/-- `tools.create_new_service`: emit, then `wait_for_result()`. -/
def create_new_service_trace : List BridgeStep :=
  BridgeStep.dispatchOp "create_service_requested" :: wait_for_result_trace

/-- `tools.load_service`. -/
def load_service_trace : List BridgeStep :=
  BridgeStep.dispatchOp "load_service_requested" :: wait_for_result_trace

/-- `tools.save_service`. -/
def save_service_trace : List BridgeStep :=
  BridgeStep.dispatchOp "save_service_requested" :: wait_for_result_trace

/-- `tools.get_service_items`. -/
def get_service_items_trace : List BridgeStep :=
  BridgeStep.dispatchOp "get_service_items_requested" :: wait_for_result_trace

/-- `tools.add_song_to_service`. -/
def add_song_to_service_trace : List BridgeStep :=
  BridgeStep.dispatchOp "add_song_requested" :: wait_for_result_trace

/-- `tools.add_custom_slide_to_service`. -/
def add_custom_slide_to_service_trace : List BridgeStep :=
  BridgeStep.dispatchOp "add_custom_slide_requested" :: wait_for_result_trace

/-- `tools.add_media_to_service`: emit, then the long wait when the raw
argument's extension is a PowerPoint one, the short wait otherwise. -/
def add_media_to_service_trace (file_path : String) : List BridgeStep :=
  BridgeStep.dispatchOp "add_media_requested" ::
    (if powerpoint_extensions.contains (pyLower (pySuffix file_path)) then
      wait_for_result_long_trace
    else
      wait_for_result_trace)

/-- `tools.add_sample_image`. -/
def add_sample_image_trace : List BridgeStep :=
  BridgeStep.dispatchOp "add_media_requested" :: wait_for_result_trace

/-- `tools.add_sample_video`. -/
def add_sample_video_trace : List BridgeStep :=
  BridgeStep.dispatchOp "add_media_requested" :: wait_for_result_trace

/-- `tools.go_live_with_item`. -/
def go_live_with_item_trace : List BridgeStep :=
  BridgeStep.dispatchOp "go_live_requested" :: wait_for_result_trace

/-- `tools.next_slide`. -/
def next_slide_trace : List BridgeStep :=
  BridgeStep.dispatchOp "next_slide_requested" :: wait_for_result_trace

/-- `tools.previous_slide`. -/
def previous_slide_trace : List BridgeStep :=
  BridgeStep.dispatchOp "previous_slide_requested" :: wait_for_result_trace

/-- `tools.list_themes`. -/
def list_themes_trace : List BridgeStep :=
  BridgeStep.dispatchOp "list_themes_requested" :: wait_for_result_trace

/-- `tools.set_service_theme`. -/
def set_service_theme_trace : List BridgeStep :=
  BridgeStep.dispatchOp "set_theme_requested" :: wait_for_result_trace

/-- `tools.create_theme_with_properties`. -/
def create_theme_with_properties_trace : List BridgeStep :=
  BridgeStep.dispatchOp "create_theme_requested" :: wait_for_result_trace

/-- `tools.get_theme_details`. -/
def get_theme_details_trace : List BridgeStep :=
  BridgeStep.dispatchOp "get_theme_details_requested" :: wait_for_result_trace

/-- `tools.update_theme_properties`. -/
def update_theme_properties_trace : List BridgeStep :=
  BridgeStep.dispatchOp "update_theme_requested" :: wait_for_result_trace

/-- `tools.delete_theme`. -/
def delete_theme_tool_trace : List BridgeStep :=
  BridgeStep.dispatchOp "delete_theme_requested" :: wait_for_result_trace

/-- `tools.duplicate_theme`. -/
def duplicate_theme_tool_trace : List BridgeStep :=
  BridgeStep.dispatchOp "duplicate_theme_requested" :: wait_for_result_trace

/-- `tools.set_item_theme`. -/
def set_item_theme_tool_trace : List BridgeStep :=
  BridgeStep.dispatchOp "set_item_theme_requested" :: wait_for_result_trace

/-- `tools.get_item_theme`. -/
def get_item_theme_tool_trace : List BridgeStep :=
  BridgeStep.dispatchOp "get_item_theme_requested" :: wait_for_result_trace

/-- `tools.clear_item_theme`. -/
def clear_item_theme_tool_trace : List BridgeStep :=
  BridgeStep.dispatchOp "clear_item_theme_requested" :: wait_for_result_trace

/-- All single-submit MCP tools of `tools.py` with their step traces
(the composite demo tool `test_media_types`, three submits in sequence, is
the concatenation of such traces and is left aside). -/
def tool_traces : List (List BridgeStep) :=
  [create_new_service_trace, load_service_trace, save_service_trace,
   get_service_items_trace, add_song_to_service_trace, add_custom_slide_to_service_trace,
   add_media_to_service_trace "deck.pptx", add_media_to_service_trace "photo.jpg",
   add_sample_image_trace, add_sample_video_trace, go_live_with_item_trace,
   next_slide_trace, previous_slide_trace, list_themes_trace, set_service_theme_trace,
   create_theme_with_properties_trace, get_theme_details_trace,
   update_theme_properties_trace, delete_theme_tool_trace, duplicate_theme_tool_trace,
   set_item_theme_tool_trace, get_item_theme_tool_trace, clear_item_theme_tool_trace]

/-- Whether a step is the channel clear. -/
def isClearStep : BridgeStep → Bool
  | .clearChannel => true
  | _ => false

/-- Whether a step is the dispatch of the operation to the main thread. -/
def isDispatchStep : BridgeStep → Bool
  | .dispatchOp _ => true
  | _ => false

/-- Whether a step is the blocking wait. -/
def isAwaitStep : BridgeStep → Bool
  | .blockAwait _ => true
  | _ => false

/-- The timeout of the first blocking wait in a trace. -/
def traceAwaitTimeout (tr : List BridgeStep) : Option ℚ :=
  (tr.filterMap fun s => match s with | .blockAwait t => some t | _ => none).head?

/-! ## Handler embeddings (`worker.py`)

Each `@QtCore.Slot` handler of `MCPWorker` runs on the main thread and either
emits exactly one result through `operation_completed` or (for the PowerPoint
handoff) returns without emitting, leaving the signal to the conversion
callback. External collaborator calls that can raise are fields of an
environment record holding `Except PyExc` outcomes; a handler body lives in
`Except PyExc` and the `try/except` boundary of the source is the surrounding
`match` that turns every fault into the handler's error string. -/

/-- What a handler invocation does: signal one value now, or hand off to the
background conversion (the `return  # Will emit result when conversion
completes` path of `_add_presentation`). -/
inductive HandlerOut
  | signaled (v : RValue)
  | deferredConversion (ppt_path : String) (pending_title : String)
  deriving DecidableEq

/-- Python's `title or fallback` for the title strings of `worker.py` ("" is
the falsy empty title the tools layer passes for a missing argument). -/
def orTitle (title fallback : String) : String :=
  if title = "" then fallback else title

/-- Collaborator calls of `MCPWorker.create_service`. -/
structure CreateServiceEnv where
  new_file : Except PyExc Unit
  repaint_service_list : Except PyExc Unit

/-- The `try` body of `MCPWorker.create_service`. -/
def create_service_body (env : CreateServiceEnv) : Except PyExc HandlerOut := do
  env.new_file
  env.repaint_service_list
  pure (.signaled (.str "New service created successfully"))

/-- `MCPWorker.create_service`: the body under its catch-all `except`. -/
def create_service (env : CreateServiceEnv) : HandlerOut :=
  match create_service_body env with
  | .ok out => out
  | .error e => .signaled (.str s!"Error creating new service: {e}")

/-- Collaborator calls of `MCPWorker.go_live`. -/
structure GoLiveEnv where
  set_item : Int → Except PyExc Unit
  make_live : Except PyExc Unit

/-- The `try` body of `MCPWorker.go_live`. -/
def go_live_body (env : GoLiveEnv) (item_index : Int) : Except PyExc String := do
  env.set_item item_index
  env.make_live
  pure s!"Item {item_index} is now live"

/-- `MCPWorker.go_live`: the body under its catch-all `except`; always emits
exactly one string. -/
def go_live (env : GoLiveEnv) (item_index : Int) : String :=
  match go_live_body env item_index with
  | .ok m => m
  | .error e => s!"Error going live: {e}"

/-- A model of the external `service_manager.set_item` collaborator behaving
as Python list indexing on an `n`-item service: out-of-range raises. -/
def listSetItem (n : Nat) (i : Int) : Except PyExc Unit :=
  if 0 ≤ i ∧ i < (n : Int) then .ok () else .error "list index out of range"

/-- One service item as `MCPWorker.get_service_items` reads it from the
service manager: `service_item.title`, `str(service_item.service_item_type)`,
`service_item.name` and `item['order']`. -/
structure ServiceItemRec where
  title : String
  item_type : String
  plugin_name : String
  order : Int
  deriving DecidableEq

/-- The dict `get_service_items` appends for one service item. -/
def service_item_record (it : ServiceItemRec) : PyDict :=
  [("title", .s it.title), ("type", .s it.item_type),
   ("plugin", .s it.plugin_name), ("order", .i it.order)]

/-- `MCPWorker.get_service_items`: enumerate the current items (the
environment is the read of `service_manager.service_items`, faulting as a
whole when any access raises); on a fault emit `[{"error": str(e)}]`. -/
def get_service_items (env : Except PyExc (List ServiceItemRec)) : RValue :=
  match env with
  | .ok items => .records (items.map service_item_record)
  | .error e => .records [[("error", .s e)]]

/-! ## `add_media` and its sub-handlers -/

/-- Collaborator calls of `MCPWorker._add_pdf_presentation`. -/
structure PdfEnv where
  presentations_plugin_active : Bool
  pdf_controller_enabled : Bool
  add_document : Except PyExc Bool
  load_presentation : Except PyExc Bool
  slide_count_probe : Except PyExc (Option Int)
  service_add : Except PyExc Unit

/-- The slide count `_add_pdf_presentation` settles on: default 1, replaced by
the probed count only when the probe yields a positive value, and 1 again when
the probing raises (its local `except` swallows the fault). -/
def pdf_slide_count (probe : Except PyExc (Option Int)) : Int :=
  match probe with
  | .error _ => 1
  | .ok none => 1
  | .ok (some n) => if n > 0 then n else 1

/-- The `try` body of `MCPWorker._add_pdf_presentation`. -/
def add_pdf_presentation_body (env : PdfEnv) (file_path title : String) :
    Except PyExc String := do
  if ¬ env.presentations_plugin_active then
    return "Presentations plugin not available"
  if ¬ env.pdf_controller_enabled then
    return "PDF controller not available - please ensure PDF support is enabled"
  let doc ← env.add_document
  if ¬ doc then
    return s!"Failed to create PDF document for: {pyName file_path}"
  let loaded ← env.load_presentation
  if ¬ loaded then
    return s!"Failed to load presentation: {pyName file_path}"
  let slide_count := pdf_slide_count env.slide_count_probe
  if slide_count > 0 then do
    env.service_add
    return s!"Presentation '{orTitle title (pyName file_path)}' with {slide_count} slides added to service"
  else
    return s!"No slides found in presentation: {pyName file_path}"

/-- `MCPWorker._add_pdf_presentation`: the body under its catch-all `except`;
always emits exactly one string. -/
def add_pdf_presentation (env : PdfEnv) (file_path title : String) : String :=
  match add_pdf_presentation_body env file_path title with
  | .ok m => m
  | .error e => s!"Error adding PDF presentation: {e}"

/-- The Qt thread bookkeeping of `_start_powerpoint_conversion` (cleanup of a
running thread, thread and worker creation, signal wiring, start), collapsed
to its possible fault. -/
structure ConvStartEnv where
  thread_ops : Except PyExc Unit

/-- `MCPWorker._start_powerpoint_conversion`, seen through the handler
contract: on success the handler returns without emitting, the pending title
being `title or f"{ppt_path.stem} (converted)"`; a fault in the `try` emits
the error string. -/
def start_powerpoint_conversion_h (env : ConvStartEnv) (ppt_path title : String) :
    HandlerOut :=
  match env.thread_ops with
  | .ok _ => .deferredConversion ppt_path (orTitle title (pyStem ppt_path ++ " (converted)"))
  | .error e => .signaled (.str s!"Error starting PowerPoint conversion: {e}")

/-- Collaborator calls of `MCPWorker.add_media` and its sub-handlers. -/
structure MediaEnv where
  resolve_file_path : String → Except PyExc String
  images_plugin_active : Bool
  image_add : Except PyExc Unit
  media_plugin_active : Bool
  media_add : Except PyExc Unit
  pdf : PdfEnv
  conv : ConvStartEnv

/-- `MCPWorker._add_image`: no `try` of its own, so collaborator faults
propagate to `add_media`; emits once otherwise. -/
def add_image (env : MediaEnv) (file_path title : String) : Except PyExc HandlerOut := do
  if ¬ env.images_plugin_active then
    return .signaled (.str "Images plugin not available")
  env.image_add
  return .signaled (.str s!"Image '{orTitle title (pyName file_path)}' added to service")

/-- `MCPWorker._add_video_audio`: no `try` of its own; emits once otherwise,
capitalising the media type. -/
def add_video_audio (env : MediaEnv) (file_path title : String) (is_video : Bool) :
    Except PyExc HandlerOut := do
  if ¬ env.media_plugin_active then
    return .signaled (.str "Media plugin not available")
  env.media_add
  let media_type := if is_video then "Video" else "Audio"
  return .signaled (.str s!"{media_type} '{orTitle title (pyName file_path)}' added to service")

/-- `MCPWorker._add_presentation`: PowerPoint extensions go to the background
conversion, everything else to `_add_pdf_presentation`; its own `except` is
unreachable because both callees catch internally. -/
def add_presentation (env : MediaEnv) (file_path title : String) : HandlerOut :=
  if powerpoint_extensions.contains (pyLower (pySuffix file_path)) then
    start_powerpoint_conversion_h env.conv file_path title
  else
    .signaled (.str (add_pdf_presentation env.pdf file_path title))

/-- The decorated title of `add_media`: a URL argument with no title gets
`f"{resolved_path.name} (downloaded)"`. -/
def mediaTitle (file_path resolved title : String) : String :=
  if is_url file_path ∧ title = "" then pyName resolved ++ " (downloaded)" else title

/-- The `try` body of `MCPWorker.add_media`: resolve the locator, classify the
resolved path's lowered extension, route to the matching sub-handler, or emit
the unsupported-format message. -/
def add_media_body (env : MediaEnv) (file_path title : String) :
    Except PyExc HandlerOut := do
  let resolved ← env.resolve_file_path file_path
  let extension := pyLower (pySuffix resolved)
  let title := mediaTitle file_path resolved title
  if image_extensions.contains extension then
    add_image env resolved title
  else if video_extensions.contains extension ∨ audio_extensions.contains extension then
    add_video_audio env resolved title (video_extensions.contains extension)
  else if presentation_extensions.contains extension then
    pure (add_presentation env resolved title)
  else
    pure (.signaled (.str (unsupported_msg extension)))

/-- `MCPWorker.add_media`: the body under its catch-all `except`. -/
def add_media (env : MediaEnv) (file_path title : String) : HandlerOut :=
  match add_media_body env file_path title with
  | .ok out => out
  | .error e => .signaled (.str s!"Error adding media: {e}")

/-! ## The conversion worker (`conversion.py`) -/

/-- What a `ConversionWorker` run signals back. -/
inductive ConvSignal
  | completed (pdf_path title : String)
  | failed (msg : String)
  deriving DecidableEq

/-- The conversion strategies of `_convert_ppt_to_pdf` collapsed to their
outcome: `some pdf` when a conversion produced an existing file, `none` when
both strategies came back empty; an exception anywhere in the body. -/
structure ConvertEnv where
  convert_result : Except PyExc (Option String)

/-- `ConversionWorker.convert_powerpoint`: emits `conversion_completed` when a
PDF exists, `conversion_failed` otherwise; its catch-all turns any fault into
a `conversion_failed` message, never a propagated exception. -/
def convert_powerpoint (env : ConvertEnv) (ppt_path title : String) : ConvSignal :=
  match env.convert_result with
  | .ok (some pdf_path) => .completed pdf_path title
  | .ok none => .failed "Failed to convert PowerPoint file to PDF"
  | .error e => .failed s!"Error during conversion: {e}"

/-! ## Theme management (`MCPWorker.delete_theme`) -/

/-- The theme store as the handlers observe it: the names
`theme_manager.get_theme_names()` returns and `theme_manager.global_theme`. -/
structure ThemeStore where
  names : List String
  global_theme : String
  deriving DecidableEq

/-- `MCPWorker.delete_theme`: existence check, then the 'Default' guard, then
the global-theme guard, then the deletion; returns the emitted string and the
store afterwards. -/
def delete_theme (store : ThemeStore) (theme_name : String) : String × ThemeStore :=
  if ¬ (theme_name ∈ store.names) then
    ("Theme '" ++ theme_name ++ "' not found", store)
  else if theme_name = "Default" then
    ("Cannot delete the default theme 'Default'", store)
  else if theme_name = store.global_theme then
    ("Cannot delete the global theme '" ++ theme_name ++
      "'. Please set a different global theme first.", store)
  else
    ("Theme '" ++ theme_name ++ "' deleted successfully",
     { store with names := store.names.erase theme_name })

/-! ## Per-item themes (`set_item_theme` / `clear_item_theme`) -/

/-- One service item as the per-item theme handlers touch it. -/
structure ItemState where
  title : String
  theme : Option String
  deriving DecidableEq

/-- The state `set_item_theme` reads and mutates: the service items, the
available theme names, and the modified flag `set_modified` raises. -/
structure ServiceState where
  items : List ItemState
  theme_names : List String
  modified : Bool
  deriving DecidableEq

/-- Python truthiness of `theme_name and theme_name.lower() != 'none'`:
`None` and `""` are falsy, and the literal string "none" clears as well. -/
def truthyTheme : Option String → Bool
  | none => false
  | some s => ¬ (s = "") ∧ pyLower s ≠ "none"

/-- `MCPWorker.set_item_theme`: index guard, theme-existence guard when a real
theme name is given, then `service_item.update_theme` plus `set_modified`;
returns the emitted string and the state afterwards. -/
def set_item_theme (st : ServiceState) (item_index : Int) (theme_name : Option String) :
    String × ServiceState :=
  if item_index < 0 ∨ (st.items.length : Int) ≤ item_index then
    (s!"Invalid item index: {item_index}", st)
  else
    let i := item_index.toNat
    let item := (st.items.get? i).getD ⟨"", none⟩
    if truthyTheme theme_name then
      let name := theme_name.getD ""
      if ¬ (name ∈ st.theme_names) then
        ("Theme '" ++ name ++ "' not found", st)
      else
        (s!"Item {item_index} ('{item.title}') theme set to '{name}'",
         { st with items := st.items.set i { item with theme := some name },
                   modified := true })
    else
      (s!"Item {item_index} ('{item.title}') theme cleared (using service/global theme)",
       { st with items := st.items.set i { item with theme := none },
                 modified := true })

/-- `MCPWorker.clear_item_theme`: delegates to `set_item_theme` with `None`;
its own `except` is unreachable because `set_item_theme` catches internally. -/
def clear_item_theme (st : ServiceState) (item_index : Int) : String × ServiceState :=
  set_item_theme st item_index none

/-! ## The single-flight conversion bookkeeping on the main thread

`_start_powerpoint_conversion`, `_on_conversion_completed` and
`_cleanup_conversion_thread` all run on the main thread, so their executions
interleave atomically with respect to each other; a `conversion_completed`
signal emitted by a worker is a queued event the main thread processes later,
carrying only the payload `(pdf_path, title)` of the emitting worker.  Worker
threads are named by numeric identities so a trace can speak about which
thread an action touches. -/

/-- The conversion-related fields of `MCPWorker`. -/
structure ConvMgrState where
  conversion_thread : Option Nat
  pending_conversion_title : Option String
  deriving DecidableEq

/-- Observable actions of the conversion bookkeeping: stopping a worker thread
(`quit()` + `wait()`), starting one, and invoking `_add_pdf_presentation` —
the add-converted-output-to-service step — with a payload. -/
inductive ConvAction
  | stopThread (job : Nat)
  | startThread (job : Nat)
  | serviceAdd (pdf_path : String) (title : String)
  deriving DecidableEq

/-- `MCPWorker._start_powerpoint_conversion` as a state transition: stop the
current thread when one exists, record the pending title, create and start the
new worker thread `newJob`. -/
def start_powerpoint_conversion_step (s : ConvMgrState) (newJob : Nat)
    (ppt_path title : String) : ConvMgrState × List ConvAction :=
  let stopActs := match s.conversion_thread with
    | some j => [ConvAction.stopThread j]
    | none => []
  let pending := orTitle title (pyStem ppt_path ++ " (converted)")
  ({ conversion_thread := some newJob, pending_conversion_title := some pending },
   stopActs ++ [ConvAction.startThread newJob])

/-- `MCPWorker._on_conversion_completed` as a state transition: it calls
`_add_pdf_presentation(pdf_path, title)` with the delivered payload — without
inspecting which worker emitted the signal — and then
`_cleanup_conversion_thread`, which stops and drops whatever thread is
currently recorded. -/
def on_conversion_completed_step (s : ConvMgrState) (pdf_path title : String) :
    ConvMgrState × List ConvAction :=
  let cleanupActs := match s.conversion_thread with
    | some j => [ConvAction.stopThread j]
    | none => []
  ({ conversion_thread := none, pending_conversion_title := s.pending_conversion_title },
   ConvAction.serviceAdd pdf_path title :: cleanupActs)

/-- An event the main thread processes, in queue order. -/
inductive MainEvent
  | startConversion (job : Nat) (ppt_path title : String)
  | conversionCompleted (pdf_path title : String)
  deriving DecidableEq

/-- Dispatch of one main-thread event. -/
def convStep (s : ConvMgrState) : MainEvent → ConvMgrState × List ConvAction
  | .startConversion j p t => start_powerpoint_conversion_step s j p t
  | .conversionCompleted p t => on_conversion_completed_step s p t

/-- Process a queue of main-thread events, collecting the actions. -/
def runConv (s : ConvMgrState) : List MainEvent → ConvMgrState × List ConvAction
  | [] => (s, [])
  | e :: es =>
    let (s1, as1) := convStep s e
    let (s2, as2) := runConv s1 es
    (s2, as1 ++ as2)

/-- The overlapping-jobs queue of the single-flight scenario: job A (thread 1)
is started and finishes — its `conversion_completed("a.pdf", "A")` is queued —
then job B (thread 2) is started before that event is processed, then the two
completion events are delivered in order. -/
def overlap_trace : List MainEvent :=
  [.startConversion 1 "a.pptx" "A",
   .startConversion 2 "b.pptx" "B",
   .conversionCompleted "a.pdf" "A",
   .conversionCompleted "b.pdf" "B"]

/-- The empty initial conversion state of `MCPWorker.__init__`. -/
def convInit : ConvMgrState := { conversion_thread := none, pending_conversion_title := none }


/-- All extensions `add_media` accepts, in table order. -/
def all_media_extensions : List String :=
  image_extensions ++ video_extensions ++ audio_extensions ++ presentation_extensions

/-- The environment of the C5 counterexample: the locator names a PowerPoint
file that does not exist locally, so `resolve_file_path` raises
`FileNotFoundError`; every other collaborator behaves. -/
def missingPptEnv : MediaEnv :=
  { resolve_file_path := fun _ => .error "Local file not found: deck.pptx",
    images_plugin_active := true, image_add := .ok (),
    media_plugin_active := true, media_add := .ok (),
    pdf := ⟨true, true, .ok true, .ok true, .ok (some 3), .ok ()⟩,
    conv := ⟨.ok ()⟩ }

/-! ## Helper lemmas on the extension tables -/

/-- A `contains` fact yields membership in the literal extension list. -/
theorem contains_mem {l : List String} {e : String} (h : l.contains e = true) : e ∈ l := by
  simpa using h

/-- A PowerPoint extension is classified as a presentation and as nothing
else by `add_media`'s tables. -/
theorem ppt_class {e : String} (h : powerpoint_extensions.contains e = true) :
    image_extensions.contains e = false ∧ video_extensions.contains e = false ∧
      audio_extensions.contains e = false ∧ presentation_extensions.contains e = true := by
  have hm : e ∈ powerpoint_extensions := contains_mem h
  fin_cases hm <;> exact ⟨rfl, rfl, rfl, rfl⟩

/-- A presentation extension is not in the earlier tables `add_media` checks. -/
theorem pres_class {e : String} (h : presentation_extensions.contains e = true) :
    image_extensions.contains e = false ∧ video_extensions.contains e = false ∧
      audio_extensions.contains e = false := by
  have hm : e ∈ presentation_extensions := contains_mem h
  fin_cases hm <;> exact ⟨rfl, rfl, rfl⟩

/-- A video extension is not an image extension. -/
theorem video_class {e : String} (h : video_extensions.contains e = true) :
    image_extensions.contains e = false := by
  have hm : e ∈ video_extensions := contains_mem h
  fin_cases hm <;> rfl

/-- An audio extension is neither an image nor a video extension. -/
theorem audio_class {e : String} (h : audio_extensions.contains e = true) :
    image_extensions.contains e = false ∧ video_extensions.contains e = false := by
  have hm : e ∈ audio_extensions := contains_mem h
  fin_cases hm <;> exact ⟨rfl, rfl⟩

/-! ## C2 — the bounded wait of the result channel -/

/-- C2: every call of `wait_for_result` / `wait_for_result_long` with timeout
`t` returns the stored result when the signal arrives within `t`, raises the
timeout error when it does not, and admits no third outcome; the short class
defaults to 10 and the long class to 90. -/
theorem wait_for_result_bounded :
    ∀ (timeout : ℚ) (arrival : Option ℚ) (stored : RValue),
      ((∃ t, arrival = some t ∧ t ≤ timeout) →
          wait_for_result arrival stored timeout = .ok stored
        ∧ wait_for_result_long arrival stored timeout = .ok stored)
    ∧ (¬ (∃ t, arrival = some t ∧ t ≤ timeout) →
          wait_for_result arrival stored timeout = .timeoutError "Operation timed out"
        ∧ wait_for_result_long arrival stored timeout = .timeoutError "Long operation timed out")
    ∧ (wait_for_result arrival stored timeout = .ok stored
        ∨ ∃ msg, wait_for_result arrival stored timeout = .timeoutError msg)
    ∧ wait_for_result arrival stored = wait_for_result arrival stored 10
    ∧ wait_for_result_long arrival stored = wait_for_result_long arrival stored 90 := by
  intro timeout arrival stored
  have hiff : eventWait timeout arrival = true ↔ ∃ t, arrival = some t ∧ t ≤ timeout := by
    cases arrival with
    | none => simp [eventWait]
    | some t => simp [eventWait]
  refine ⟨?_, ?_, ?_, rfl, rfl⟩
  · intro h
    have hw : eventWait timeout arrival = true := hiff.mpr h
    simp [wait_for_result, wait_for_result_long, hw]
  · intro h
    have hw : eventWait timeout arrival = false := by
      cases hev : eventWait timeout arrival with
      | false => rfl
      | true => exact absurd (hiff.mp hev) h
    simp [wait_for_result, wait_for_result_long, hw]
  · cases hev : eventWait timeout arrival with
    | false => exact Or.inr ⟨"Operation timed out", by simp [wait_for_result, hev]⟩
    | true => exact Or.inl (by simp [wait_for_result, hev])

/-- C2 witness: at timeout 10 a signal arriving at time 3 yields the stored
value; with no signal the wait raises the timeout error. -/
theorem wait_for_result_bounded_witness :
    wait_for_result (some 3) (.str "done") 10 = .ok (.str "done")
  ∧ wait_for_result none (.str "done") 10 = .timeoutError "Operation timed out" := by
  constructor
  · exact ((wait_for_result_bounded 10 (some 3) (.str "done")).1
      ⟨3, rfl, by norm_num⟩).1
  · exact ((wait_for_result_bounded 10 none (.str "done")).2.1
      (by rintro ⟨t, ht, -⟩; cases ht)).1

/-! ## C4 — the order of clear, dispatch and wait inside a tool call -/

/-- C4 counterexample: in `tools.create_new_service` the channel clear does
not precede the dispatch of the operation — `result_ready.clear()` happens
inside `wait_for_result`, after `create_service_requested.emit()`. -/
theorem submit_clear_order_counterexample :
    ¬ (create_new_service_trace.findIdx isClearStep
        < create_new_service_trace.findIdx isDispatchStep) := by
  decide

/-- C4 amended: every MCP tool performs its steps in the order dispatch (emit
to the main thread), then channel clear, then blocking wait — the clear
follows the dispatch because it lives inside the wait helper. -/
theorem submit_dispatch_then_clear_then_wait :
    ∀ tr ∈ tool_traces,
      tr.findIdx isDispatchStep = 0 ∧ tr.findIdx isClearStep = 1
        ∧ tr.findIdx isAwaitStep = 2 := by
  decide

/-- C4 witness: the cited tool `create_new_service` dispatches at step 0,
clears at step 1 and waits at step 2. -/
theorem submit_dispatch_then_clear_then_wait_witness :
    create_new_service_trace.findIdx isDispatchStep = 0
  ∧ create_new_service_trace.findIdx isClearStep = 1
  ∧ create_new_service_trace.findIdx isAwaitStep = 2 :=
  submit_dispatch_then_clear_then_wait create_new_service_trace (by decide)

/-! ## C1 — only the timeout escapes `submit` -/

/-- C1: every fault raised inside a handler body (collaborator fault,
locator-resolution fault, conversion fault) is caught at the handler boundary
and turned into the handler's human-readable failure string, signaled as the
result; the conversion worker likewise turns faults into a failure signal;
and the only error the emit-then-wait tool call can produce is the timeout of
the wait. -/
theorem submit_raises_only_timeout :
    ∀ (cenv : CreateServiceEnv) (menv : MediaEnv) (genv : GoLiveEnv) (cve : ConvertEnv)
      (fp title pp tt : String) (i : Int) (e1 e2 e3 e4 : PyExc)
      (stored : RValue) (arrival : Option ℚ) (timeout : ℚ) (err : PyError),
      (create_service_body cenv = .error e1 →
        create_service cenv = .signaled (.str s!"Error creating new service: {e1}"))
    ∧ (add_media_body menv fp title = .error e2 →
        add_media menv fp title = .signaled (.str s!"Error adding media: {e2}"))
    ∧ (go_live_body genv i = .error e3 →
        go_live genv i = s!"Error going live: {e3}")
    ∧ (cve.convert_result = .error e4 →
        convert_powerpoint cve pp tt = .failed s!"Error during conversion: {e4}")
    ∧ (submitResult stored arrival timeout = .error err → ∃ m, err = .timeout m) := by
  intro cenv menv genv cve fp title pp tt i e1 e2 e3 e4 stored arrival timeout err
  refine ⟨?_, ?_, ?_, ?_, ?_⟩
  · intro h; simp [create_service, h]
  · intro h; simp [add_media, h]
  · intro h; simp [go_live, h]
  · intro h; simp [convert_powerpoint, h]
  · intro h
    by_cases hev : eventWait timeout arrival = true
    · simp [submitResult, hev] at h
    · simp [submitResult, hev] at h
      exact ⟨"Operation timed out", h.symm⟩

/-- C1 witness: with a failing service manager, a failing locator resolution,
a failing item selection and a crashing converter, every handler still
delivers a failure string as its signaled result, and a wait that never gets
a signal produces exactly the timeout error. -/
theorem submit_raises_only_timeout_witness :
    create_service ⟨.error "boom", .ok ()⟩
      = .signaled (.str "Error creating new service: boom")
  ∧ add_media ⟨fun _ => .error "Local file not found: x.jpg", true, .ok (), true, .ok (),
        ⟨true, true, .ok true, .ok true, .ok none, .ok ()⟩, ⟨.ok ()⟩⟩ "x.jpg" ""
      = .signaled (.str "Error adding media: Local file not found: x.jpg")
  ∧ go_live ⟨fun _ => .error "list index out of range", .ok ()⟩ 99
      = "Error going live: list index out of range"
  ∧ convert_powerpoint ⟨.error "soffice crashed"⟩ "a.pptx" "A"
      = .failed "Error during conversion: soffice crashed"
  ∧ ∃ m, PyError.timeout "Operation timed out" = PyError.timeout m := by
  refine ⟨?_, ?_, ?_, ?_, ?_⟩
  · exact (submit_raises_only_timeout ⟨.error "boom", .ok ()⟩
      ⟨fun _ => .error "x", true, .ok (), true, .ok (), ⟨true, true, .ok true, .ok true,
        .ok none, .ok ()⟩, ⟨.ok ()⟩⟩
      ⟨fun _ => .ok (), .ok ()⟩ ⟨.ok none⟩ "" "" "" "" 0 "boom" "" "" ""
      (.str "") none 10 (.timeout "")).1 rfl
  · exact (submit_raises_only_timeout ⟨.ok (), .ok ()⟩
      ⟨fun _ => .error "Local file not found: x.jpg", true, .ok (), true, .ok (),
        ⟨true, true, .ok true, .ok true, .ok none, .ok ()⟩, ⟨.ok ()⟩⟩
      ⟨fun _ => .ok (), .ok ()⟩ ⟨.ok none⟩ "x.jpg" "" "" "" 0 ""
      "Local file not found: x.jpg" "" "" (.str "") none 10 (.timeout "")).2.1 rfl
  · exact (submit_raises_only_timeout ⟨.ok (), .ok ()⟩
      ⟨fun _ => .ok "", true, .ok (), true, .ok (), ⟨true, true, .ok true, .ok true,
        .ok none, .ok ()⟩, ⟨.ok ()⟩⟩
      ⟨fun _ => .error "list index out of range", .ok ()⟩ ⟨.ok none⟩ "" "" "" "" 99 ""
      "" "list index out of range" "" (.str "") none 10 (.timeout "")).2.2.1 rfl
  · exact (submit_raises_only_timeout ⟨.ok (), .ok ()⟩
      ⟨fun _ => .ok "", true, .ok (), true, .ok (), ⟨true, true, .ok true, .ok true,
        .ok none, .ok ()⟩, ⟨.ok ()⟩⟩
      ⟨fun _ => .ok (), .ok ()⟩ ⟨.error "soffice crashed"⟩ "" "" "a.pptx" "A" 0 ""
      "" "" "soffice crashed" (.str "") none 10 (.timeout "")).2.2.2.1 rfl
  · exact (submit_raises_only_timeout ⟨.ok (), .ok ()⟩
      ⟨fun _ => .ok "", true, .ok (), true, .ok (), ⟨true, true, .ok true, .ok true,
        .ok none, .ok ()⟩, ⟨.ok ()⟩⟩
      ⟨fun _ => .ok (), .ok ()⟩ ⟨.ok none⟩ "" "" "" "" 0 ""
      "" "" "" (.str "") none 10 (.timeout "Operation timed out")).2.2.2.2 rfl

/-! ## C3 — single-flight conversion and the stale completion callback -/

/-- C3 counterexample: in the overlapping-jobs scenario — job A (thread 1)
finishes and queues its completion, job B (thread 2) is started before that
event is processed, then both completions are delivered — the main thread
still processes A's stale callback: A's output `a.pdf` reaches the
add-to-service step after B was started, so it is not the case that only B's
output reaches that step. -/
theorem conversion_stale_callback_counterexample :
    (runConv convInit overlap_trace).2
      = [ConvAction.startThread 1, ConvAction.stopThread 1, ConvAction.startThread 2,
         ConvAction.serviceAdd "a.pdf" "A", ConvAction.stopThread 2,
         ConvAction.serviceAdd "b.pdf" "B"] := by
  rfl

/-- C3 amended: starting job B while a worker context exists stops the current
context before creating B's, and afterwards exactly B's thread is recorded —
at most one conversion worker context exists at a time; but completion
callbacks are not filtered by sender: a delivered `conversion_completed`
payload always reaches the add-to-service step, whatever thread is current,
so a stale callback from a superseded job is processed rather than ignored. -/
theorem conversion_single_flight_amended :
    ∀ (s : ConvMgrState) (newJob old : Nat) (p t pdf tt : String),
      (s.conversion_thread = some old →
        (start_powerpoint_conversion_step s newJob p t).2
          = [ConvAction.stopThread old, ConvAction.startThread newJob])
    ∧ (s.conversion_thread = none →
        (start_powerpoint_conversion_step s newJob p t).2
          = [ConvAction.startThread newJob])
    ∧ (start_powerpoint_conversion_step s newJob p t).1.conversion_thread = some newJob
    ∧ ((on_conversion_completed_step s pdf tt).2.head?
        = some (ConvAction.serviceAdd pdf tt)) := by
  intro s newJob old p t pdf tt
  refine ⟨?_, ?_, ?_, ?_⟩
  · intro h; simp [start_powerpoint_conversion_step, h]
  · intro h; simp [start_powerpoint_conversion_step, h]
  · simp [start_powerpoint_conversion_step]
  · cases h : s.conversion_thread <;> simp [on_conversion_completed_step, h]

/-- C3 witness: starting job 2 over running job 1 stops thread 1, starts
thread 2 and records thread 2 as the only context; a delivered completion
reaches the add step. -/
theorem conversion_single_flight_amended_witness :
    (start_powerpoint_conversion_step ⟨some 1, some "A"⟩ 2 "b.pptx" "B").2
      = [ConvAction.stopThread 1, ConvAction.startThread 2]
  ∧ (start_powerpoint_conversion_step ⟨some 1, some "A"⟩ 2 "b.pptx" "B").1.conversion_thread
      = some 2
  ∧ (on_conversion_completed_step ⟨some 2, some "B"⟩ "a.pdf" "A").2.head?
      = some (ConvAction.serviceAdd "a.pdf" "A") := by
  refine ⟨?_, ?_, ?_⟩
  · exact (conversion_single_flight_amended ⟨some 1, some "A"⟩ 2 1 "b.pptx" "B" "" "").1 rfl
  · exact (conversion_single_flight_amended ⟨some 1, some "A"⟩ 2 1 "b.pptx" "B" "" "").2.2.1
  · exact (conversion_single_flight_amended ⟨some 2, some "B"⟩ 0 0 "" "" "a.pdf" "A").2.2.2

/-! ## C5 — timeout class and the conversion handoff of add-media -/


/-- C5 counterexample: for the argument "deck.pptx" naming a missing file,
the caller does wait under the long bound, but the handler does not hand off
to the conversion — it signals the resolution failure synchronously, so a
PowerPoint extension alone does not imply the deferred handoff. -/
theorem add_media_ppt_handoff_counterexample :
    traceAwaitTimeout (add_media_to_service_trace "deck.pptx") = some 90
  ∧ add_media missingPptEnv "deck.pptx" ""
      = .signaled (.str "Error adding media: Local file not found: deck.pptx") := by
  exact ⟨rfl, rfl⟩

/-- An `add_image` run that returns normally always returns a signal. -/
theorem add_image_signals (env : MediaEnv) (fp t : String) (out : HandlerOut)
    (h : add_image env fp t = .ok out) : ∃ v, out = .signaled v := by
  unfold add_image at h
  by_cases ha : env.images_plugin_active
  · simp [ha] at h
    cases hi : env.image_add with
    | error e => rw [hi] at h; cases h
    | ok u => rw [hi] at h; cases h; exact ⟨_, rfl⟩
  · simp [ha, pure, Except.pure] at h
    exact ⟨_, h.symm⟩

/-- An `add_video_audio` run that returns normally always returns a signal. -/
theorem add_video_audio_signals (env : MediaEnv) (fp t : String) (iv : Bool)
    (out : HandlerOut) (h : add_video_audio env fp t iv = .ok out) :
    ∃ v, out = .signaled v := by
  unfold add_video_audio at h
  by_cases ha : env.media_plugin_active
  · simp [ha] at h
    cases hi : env.media_add with
    | error e => rw [hi] at h; cases h
    | ok u => rw [hi] at h; cases h; exact ⟨_, rfl⟩
  · simp [ha, pure, Except.pure] at h
    exact ⟨_, h.symm⟩

/-- C5 amended: the tools layer picks the wait class from the raw argument's
extension alone (long 90s for PowerPoint extensions, short 10s otherwise);
the handler hands off to the background conversion — returning without
signaling — exactly when locator resolution succeeds, the resolved path's
lowered extension is a PowerPoint one and starting the worker thread raises
nothing; in every other case the handler itself signals exactly once. -/
theorem add_media_wait_class_and_handoff :
    ∀ (env : MediaEnv) (fp title p : String),
      (powerpoint_extensions.contains (pyLower (pySuffix fp)) = true →
        traceAwaitTimeout (add_media_to_service_trace fp) = some 90)
    ∧ (powerpoint_extensions.contains (pyLower (pySuffix fp)) = false →
        traceAwaitTimeout (add_media_to_service_trace fp) = some 10)
    ∧ (env.resolve_file_path fp = .ok p →
       powerpoint_extensions.contains (pyLower (pySuffix p)) = true →
       env.conv.thread_ops = .ok () →
        add_media env fp title = .deferredConversion p
          (orTitle (mediaTitle fp p title) (pyStem p ++ " (converted)")))
    ∧ (∀ pp t2, add_media env fp title = .deferredConversion pp t2 →
        env.resolve_file_path fp = .ok pp
        ∧ powerpoint_extensions.contains (pyLower (pySuffix pp)) = true
        ∧ env.conv.thread_ops = .ok ())
    ∧ ((∀ pp t2, add_media env fp title ≠ .deferredConversion pp t2) →
        ∃ v, add_media env fp title = .signaled v) := by
  intro env fp title p
  refine ⟨?_, ?_, ?_, ?_, ?_⟩
  · intro h
    have hm : pyLower (pySuffix fp) ∈ powerpoint_extensions := by simpa using h
    simp [add_media_to_service_trace, traceAwaitTimeout, hm, wait_for_result_long_trace]
  · intro h
    have hm : pyLower (pySuffix fp) ∉ powerpoint_extensions := by simpa using h
    simp [add_media_to_service_trace, traceAwaitTimeout, hm, wait_for_result_trace]
  · intro hres hppt hconv
    have m1 : pyLower (pySuffix p) ∉ image_extensions := by
      simpa using (ppt_class hppt).1
    have m2 : pyLower (pySuffix p) ∉ video_extensions := by
      simpa using (ppt_class hppt).2.1
    have m3 : pyLower (pySuffix p) ∉ audio_extensions := by
      simpa using (ppt_class hppt).2.2.1
    have m4 : pyLower (pySuffix p) ∈ presentation_extensions := by
      simpa using (ppt_class hppt).2.2.2
    have mp : pyLower (pySuffix p) ∈ powerpoint_extensions := by simpa using hppt
    simp [add_media, add_media_body, hres, bind, Except.bind, m1, m2, m3, m4, mp,
      add_presentation, start_powerpoint_conversion_h, hconv, pure, Except.pure]
  · intro pp t2 h
    unfold add_media at h
    cases hres : env.resolve_file_path fp with
    | error e => simp [add_media_body, hres, bind, Except.bind] at h
    | ok r =>
      by_cases himg : pyLower (pySuffix r) ∈ image_extensions
      · simp [add_media_body, hres, bind, Except.bind, himg] at h
        cases hai : add_image env r (mediaTitle fp r title) with
        | error e => rw [hai] at h; cases h
        | ok out =>
          obtain ⟨v, rfl⟩ := add_image_signals env r (mediaTitle fp r title) out hai
          rw [hai] at h; cases h
      · by_cases hvid : pyLower (pySuffix r) ∈ video_extensions
        · simp [add_media_body, hres, bind, Except.bind, himg, hvid] at h
          cases hav : add_video_audio env r (mediaTitle fp r title) true with
          | error e => rw [hav] at h; cases h
          | ok out =>
            obtain ⟨v, rfl⟩ :=
              add_video_audio_signals env r (mediaTitle fp r title) true out hav
            rw [hav] at h; cases h
        · by_cases haud : pyLower (pySuffix r) ∈ audio_extensions
          · simp [add_media_body, hres, bind, Except.bind, himg, hvid, haud] at h
            cases hav : add_video_audio env r (mediaTitle fp r title) false with
            | error e => rw [hav] at h; cases h
            | ok out =>
              obtain ⟨v, rfl⟩ :=
                add_video_audio_signals env r (mediaTitle fp r title) false out hav
              rw [hav] at h; cases h
          · by_cases hpres : pyLower (pySuffix r) ∈ presentation_extensions
            · by_cases hp2 : pyLower (pySuffix r) ∈ powerpoint_extensions
              · cases hconv : env.conv.thread_ops with
                | error e =>
                  simp [add_media_body, hres, bind, Except.bind, himg, hvid, haud,
                    hpres, hp2, add_presentation, start_powerpoint_conversion_h,
                    hconv, pure, Except.pure] at h
                | ok u =>
                  simp [add_media_body, hres, bind, Except.bind, himg, hvid, haud,
                    hpres, hp2, add_presentation, start_powerpoint_conversion_h,
                    hconv, pure, Except.pure] at h
                  obtain ⟨rfl, -⟩ := h
                  exact ⟨rfl, by simpa using hp2, rfl⟩
              · simp [add_media_body, hres, bind, Except.bind, himg, hvid, haud,
                  hpres, hp2, add_presentation, pure, Except.pure] at h
            · simp [add_media_body, hres, bind, Except.bind, himg, hvid, haud,
                hpres, pure, Except.pure] at h
  · intro hnd
    cases hm : add_media env fp title with
    | signaled v => exact ⟨v, rfl⟩
    | deferredConversion pp t2 => exact absurd hm (hnd pp t2)

/-- C5 witness: a local "deck.pptx" that resolves to itself is handed off to
the background conversion with no synchronous signal (under the long wait
class), while "photo.jpg" is awaited under the short class. -/
theorem add_media_wait_class_and_handoff_witness :
    traceAwaitTimeout (add_media_to_service_trace "deck.pptx") = some 90
  ∧ traceAwaitTimeout (add_media_to_service_trace "photo.jpg") = some 10
  ∧ add_media ⟨fun _ => .ok "deck.pptx", true, .ok (), true, .ok (),
        ⟨true, true, .ok true, .ok true, .ok (some 3), .ok ()⟩, ⟨.ok ()⟩⟩ "deck.pptx" ""
      = .deferredConversion "deck.pptx" "deck (converted)" := by
  refine ⟨?_, ?_, ?_⟩
  · exact (add_media_wait_class_and_handoff missingPptEnv "deck.pptx" "" "").1 rfl
  · exact (add_media_wait_class_and_handoff missingPptEnv "photo.jpg" "" "").2.1 rfl
  · exact (add_media_wait_class_and_handoff
      ⟨fun _ => .ok "deck.pptx", true, .ok (), true, .ok (),
        ⟨true, true, .ok true, .ok true, .ok (some 3), .ok ()⟩, ⟨.ok ()⟩⟩
      "deck.pptx" "" "deck.pptx").2.2.1 rfl rfl rfl

/-! ## C6 — extension-determined routing of add-media -/

/-- `toString` on a string is the string itself. -/
@[simp] theorem toString_string (s : String) : toString s = s := rfl

set_option maxRecDepth 4000 in
/-- Every accepted extension occurs verbatim inside the `supported` listing of
the unsupported-format message. -/
theorem supported_lists_extensions :
    ∀ e ∈ all_media_extensions, e.data <:+: supported_formats_str.data := by
  decide

/-- The slide count `_add_pdf_presentation` settles on is always positive
(the default is 1 and a probe result replaces it only when positive). -/
theorem pdf_slide_count_pos (probe : Except PyExc (Option Int)) :
    pdf_slide_count probe > 0 := by
  unfold pdf_slide_count
  rcases probe with e | o
  · norm_num
  · rcases o with - | n
    · norm_num
    · by_cases h : n > 0 <;> simp [h]

/-- C6: after a successful locator resolution, the resolved path's lowered
extension fully determines routing — image extensions go to `_add_image`,
video or audio extensions to `_add_video_audio`, presentation extensions to
`_add_presentation`, and any other extension yields the unsupported-format
string listing every accepted extension; on success the confirmation names
the detected type (Image / Video / Audio / Presentation). -/
theorem add_media_routing :
    ∀ (env : MediaEnv) (fp title p : String),
      env.resolve_file_path fp = .ok p →
      (pyLower (pySuffix p) ∈ image_extensions →
        add_media_body env fp title = add_image env p (mediaTitle fp p title))
    ∧ (pyLower (pySuffix p) ∈ video_extensions ∨ pyLower (pySuffix p) ∈ audio_extensions →
        add_media_body env fp title = add_video_audio env p (mediaTitle fp p title)
          (decide (pyLower (pySuffix p) ∈ video_extensions)))
    ∧ (pyLower (pySuffix p) ∈ presentation_extensions →
        add_media_body env fp title = .ok (add_presentation env p (mediaTitle fp p title)))
    ∧ (pyLower (pySuffix p) ∉ all_media_extensions →
        add_media env fp title = .signaled (.str (unsupported_msg (pyLower (pySuffix p))))
        ∧ ∀ e ∈ all_media_extensions,
            e.data <:+: (unsupported_msg (pyLower (pySuffix p))).data)
    ∧ (pyLower (pySuffix p) ∈ image_extensions →
       env.images_plugin_active = true → env.image_add = .ok () →
        add_media env fp title = .signaled
          (.str s!"Image '{orTitle (mediaTitle fp p title) (pyName p)}' added to service"))
    ∧ (pyLower (pySuffix p) ∈ video_extensions →
       env.media_plugin_active = true → env.media_add = .ok () →
        add_media env fp title = .signaled
          (.str s!"Video '{orTitle (mediaTitle fp p title) (pyName p)}' added to service"))
    ∧ (pyLower (pySuffix p) ∈ audio_extensions →
       env.media_plugin_active = true → env.media_add = .ok () →
        add_media env fp title = .signaled
          (.str s!"Audio '{orTitle (mediaTitle fp p title) (pyName p)}' added to service"))
    ∧ (pyLower (pySuffix p) ∈ presentation_extensions →
       pyLower (pySuffix p) ∉ powerpoint_extensions →
       env.pdf.presentations_plugin_active = true → env.pdf.pdf_controller_enabled = true →
       env.pdf.add_document = .ok true → env.pdf.load_presentation = .ok true →
       env.pdf.service_add = .ok () →
        add_media env fp title = .signaled
          (.str s!"Presentation '{orTitle (mediaTitle fp p title) (pyName p)}' with {pdf_slide_count env.pdf.slide_count_probe} slides added to service")) := by
  intro env fp title p hres
  refine ⟨?_, ?_, ?_, ?_, ?_, ?_, ?_, ?_⟩
  · intro himg
    simp [add_media_body, hres, bind, Except.bind, himg]
  · rintro (hv | ha)
    · have himg : pyLower (pySuffix p) ∉ image_extensions := by
        simpa using video_class (by simpa using hv)
      simp [add_media_body, hres, bind, Except.bind, himg, hv]
    · have himg : pyLower (pySuffix p) ∉ image_extensions := by
        simpa using (audio_class (by simpa using ha)).1
      have hv : pyLower (pySuffix p) ∉ video_extensions := by
        simpa using (audio_class (by simpa using ha)).2
      simp [add_media_body, hres, bind, Except.bind, himg, hv, ha]
  · intro hpres
    have h3 := pres_class (by simpa using hpres)
    have himg : pyLower (pySuffix p) ∉ image_extensions := by simpa using h3.1
    have hv : pyLower (pySuffix p) ∉ video_extensions := by simpa using h3.2.1
    have ha : pyLower (pySuffix p) ∉ audio_extensions := by simpa using h3.2.2
    simp [add_media_body, hres, bind, Except.bind, himg, hv, ha, hpres, pure, Except.pure]
  · intro hall
    have himg : pyLower (pySuffix p) ∉ image_extensions := fun h =>
      hall (by simp [all_media_extensions, h])
    have hv : pyLower (pySuffix p) ∉ video_extensions := fun h =>
      hall (by simp [all_media_extensions, h])
    have ha : pyLower (pySuffix p) ∉ audio_extensions := fun h =>
      hall (by simp [all_media_extensions, h])
    have hpres : pyLower (pySuffix p) ∉ presentation_extensions := fun h =>
      hall (by simp [all_media_extensions, h])
    constructor
    · simp [add_media, add_media_body, hres, bind, Except.bind, himg, hv, ha, hpres,
        pure, Except.pure]
    · intro e he
      have hsub : e.data <:+: supported_formats_str.data := supported_lists_extensions e he
      have : (unsupported_msg (pyLower (pySuffix p))).data
          = ("Unsupported format: " ++ pyLower (pySuffix p) ++ ". Supported: ").data
            ++ supported_formats_str.data := by
        simp [unsupported_msg, String.data_append]
      rw [this]
      exact hsub.trans (List.suffix_append _ _).isInfix
  · intro himg hact hadd
    simp [add_media, add_media_body, hres, bind, Except.bind, himg, add_image, hact,
      hadd, pure, Except.pure]
  · intro hv hact hadd
    have himg : pyLower (pySuffix p) ∉ image_extensions := by
      simpa using video_class (by simpa using hv)
    simp [add_media, add_media_body, hres, bind, Except.bind, himg, hv,
      add_video_audio, hact, hadd, pure, Except.pure]
  · intro ha hact hadd
    have himg : pyLower (pySuffix p) ∉ image_extensions := by
      simpa using (audio_class (by simpa using ha)).1
    have hv : pyLower (pySuffix p) ∉ video_extensions := by
      simpa using (audio_class (by simpa using ha)).2
    simp [add_media, add_media_body, hres, bind, Except.bind, himg, hv, ha,
      add_video_audio, hact, hadd, pure, Except.pure]
  · intro hpres hppt hpa hpc hdoc hload hsa
    have h3 := pres_class (by simpa using hpres)
    have himg : pyLower (pySuffix p) ∉ image_extensions := by simpa using h3.1
    have hv : pyLower (pySuffix p) ∉ video_extensions := by simpa using h3.2.1
    have ha : pyLower (pySuffix p) ∉ audio_extensions := by simpa using h3.2.2
    have hpos := pdf_slide_count_pos env.pdf.slide_count_probe
    simp [add_media, add_media_body, hres, bind, Except.bind, himg, hv, ha, hpres,
      add_presentation, hppt, add_pdf_presentation, add_pdf_presentation_body,
      hpa, hpc, hdoc, hload, hsa, hpos, pure, Except.pure]

/-- C6 witness: with a well-behaved environment, "photo.jpg" is added as an
Image, "clip.mp4" as a Video, "doc.pdf" as a Presentation, and "x.xyz" yields
the unsupported-format listing. -/
theorem add_media_routing_witness :
    add_media ⟨fun _ => .ok "photo.jpg", true, .ok (), true, .ok (),
        ⟨true, true, .ok true, .ok true, .ok (some 3), .ok ()⟩, ⟨.ok ()⟩⟩ "photo.jpg" ""
      = .signaled (.str "Image 'photo.jpg' added to service")
  ∧ add_media ⟨fun _ => .ok "clip.mp4", true, .ok (), true, .ok (),
        ⟨true, true, .ok true, .ok true, .ok (some 3), .ok ()⟩, ⟨.ok ()⟩⟩ "clip.mp4" ""
      = .signaled (.str "Video 'clip.mp4' added to service")
  ∧ add_media ⟨fun _ => .ok "doc.pdf", true, .ok (), true, .ok (),
        ⟨true, true, .ok true, .ok true, .ok (some 3), .ok ()⟩, ⟨.ok ()⟩⟩ "doc.pdf" ""
      = .signaled (.str "Presentation 'doc.pdf' with 3 slides added to service")
  ∧ add_media ⟨fun _ => .ok "x.xyz", true, .ok (), true, .ok (),
        ⟨true, true, .ok true, .ok true, .ok (some 3), .ok ()⟩, ⟨.ok ()⟩⟩ "x.xyz" ""
      = .signaled (.str (unsupported_msg ".xyz")) := by
  refine ⟨?_, ?_, ?_, ?_⟩
  · exact (add_media_routing ⟨fun _ => .ok "photo.jpg", true, .ok (), true, .ok (),
      ⟨true, true, .ok true, .ok true, .ok (some 3), .ok ()⟩, ⟨.ok ()⟩⟩
      "photo.jpg" "" "photo.jpg" rfl).2.2.2.2.1 (by decide) rfl rfl
  · exact (add_media_routing ⟨fun _ => .ok "clip.mp4", true, .ok (), true, .ok (),
      ⟨true, true, .ok true, .ok true, .ok (some 3), .ok ()⟩, ⟨.ok ()⟩⟩
      "clip.mp4" "" "clip.mp4" rfl).2.2.2.2.2.1 (by decide) rfl rfl
  · exact (add_media_routing ⟨fun _ => .ok "doc.pdf", true, .ok (), true, .ok (),
      ⟨true, true, .ok true, .ok true, .ok (some 3), .ok ()⟩, ⟨.ok ()⟩⟩
      "doc.pdf" "" "doc.pdf" rfl).2.2.2.2.2.2.2 (by decide) (by decide)
      rfl rfl rfl rfl rfl
  · exact ((add_media_routing ⟨fun _ => .ok "x.xyz", true, .ok (), true, .ok (),
      ⟨true, true, .ok true, .ok true, .ok (some 3), .ok ()⟩, ⟨.ok ()⟩⟩
      "x.xyz" "" "x.xyz" rfl).2.2.2.1 (by decide)).1

/-! ## C7 — the shape of the list-items result -/

/-- C7 counterexample: for a one-item service the emitted record carries the
keys title, type, plugin and order — there is no field named "source"; the
plugin-name field plays that role. -/
theorem get_service_items_source_counterexample :
    get_service_items (.ok [⟨"Amazing Grace", "ServiceItemType.Text", "songs", 1⟩])
      = .records [[("title", .s "Amazing Grace"), ("type", .s "ServiceItemType.Text"),
                   ("plugin", .s "songs"), ("order", .i 1)]]
  ∧ dictGet [("title", PyVal.s "Amazing Grace"), ("type", PyVal.s "ServiceItemType.Text"),
             ("plugin", PyVal.s "songs"), ("order", PyVal.i 1)] "source" = none := by
  exact ⟨rfl, rfl⟩

/-- C7 amended: the success result is an ordered sequence with exactly one
record per current service item, each record carrying the fields
{title, type, plugin, order} (the plugin field holding the item's source
plugin name); on a fault the result is a single-element list holding only an
error record. -/
theorem get_service_items_shape :
    ∀ (items : List ServiceItemRec) (e : PyExc),
      get_service_items (.ok items) = .records (items.map service_item_record)
    ∧ (items.map service_item_record).length = items.length
    ∧ (∀ (j : Nat) (it : ServiceItemRec), items.get? j = some it →
        (items.map service_item_record).get? j
          = some [("title", .s it.title), ("type", .s it.item_type),
                  ("plugin", .s it.plugin_name), ("order", .i it.order)])
    ∧ (∀ it : ServiceItemRec,
        dictKeys (service_item_record it) = ["title", "type", "plugin", "order"])
    ∧ get_service_items (.error e) = .records [[("error", .s e)]] := by
  intro items e
  refine ⟨rfl, by simp, ?_, fun it => rfl, rfl⟩
  intro j it h
  rw [List.get?_eq_getElem?] at h ⊢
  simp [List.getElem?_map, h, service_item_record]

/-- C7 witness: a two-item service yields two records in order, with the
plugin key and no source key; a fault yields the singleton error record. -/
theorem get_service_items_shape_witness :
    get_service_items (.ok [⟨"Amazing Grace", "ServiceItemType.Text", "songs", 1⟩,
        ⟨"Announcements", "ServiceItemType.Text", "custom", 2⟩])
      = .records
          [[("title", .s "Amazing Grace"), ("type", .s "ServiceItemType.Text"),
            ("plugin", .s "songs"), ("order", .i 1)],
           [("title", .s "Announcements"), ("type", .s "ServiceItemType.Text"),
            ("plugin", .s "custom"), ("order", .i 2)]]
  ∧ ([⟨"Amazing Grace", "ServiceItemType.Text", "songs", 1⟩,
      (⟨"Announcements", "ServiceItemType.Text", "custom", 2⟩ : ServiceItemRec)].map
        service_item_record).get? 1
      = some [("title", .s "Announcements"), ("type", .s "ServiceItemType.Text"),
              ("plugin", .s "custom"), ("order", .i 2)]
  ∧ get_service_items (.error "no service manager")
      = .records [[("error", .s "no service manager")]] := by
  refine ⟨?_, ?_, ?_⟩
  · exact (get_service_items_shape [⟨"Amazing Grace", "ServiceItemType.Text", "songs", 1⟩,
      ⟨"Announcements", "ServiceItemType.Text", "custom", 2⟩] "").1
  · exact (get_service_items_shape [⟨"Amazing Grace", "ServiceItemType.Text", "songs", 1⟩,
      ⟨"Announcements", "ServiceItemType.Text", "custom", 2⟩] "").2.2.1 1
      ⟨"Announcements", "ServiceItemType.Text", "custom", 2⟩ rfl
  · exact (get_service_items_shape [] "no service manager").2.2.2.2

/-! ## C8 — the precondition guards of delete-theme -/

/-- C8: deleting 'Default' or the current global theme is refused with a
descriptive string and leaves the theme store unchanged, whatever the store
holds; a deletion happens only for a theme that exists, is not 'Default' and
is not the global theme — and then it removes exactly that theme. -/
theorem delete_theme_guards :
    ∀ (store : ThemeStore) (name : String),
      (delete_theme store "Default").2 = store
    ∧ (delete_theme store "Default").1
        = (if "Default" ∈ store.names then "Cannot delete the default theme 'Default'"
           else "Theme 'Default' not found")
    ∧ (delete_theme store store.global_theme).2 = store
    ∧ (store.global_theme ∈ store.names → store.global_theme ≠ "Default" →
        (delete_theme store store.global_theme).1
          = "Cannot delete the global theme '" ++ store.global_theme ++
              "'. Please set a different global theme first.")
    ∧ ((delete_theme store name).2 ≠ store →
        name ∈ store.names ∧ name ≠ "Default" ∧ name ≠ store.global_theme
        ∧ (delete_theme store name).1 = "Theme '" ++ name ++ "' deleted successfully"
        ∧ (delete_theme store name).2 = { store with names := store.names.erase name }) := by
  intro store name
  refine ⟨?_, ?_, ?_, ?_, ?_⟩
  · by_cases h : "Default" ∈ store.names <;> simp [delete_theme, h]
  · by_cases h : "Default" ∈ store.names <;> simp [delete_theme, h]
  · by_cases h1 : store.global_theme ∈ store.names
    · by_cases h2 : store.global_theme = "Default"
      · have h1x : "Default" ∈ store.names := h2 ▸ h1
        simp [delete_theme, h1x, h2]
      · simp [delete_theme, h1, h2]
    · simp [delete_theme, h1]
  · intro h1 h2
    simp [delete_theme, h1, h2]
  · intro hne
    by_cases h1 : name ∈ store.names
    · by_cases h2 : name = "Default"
      · subst h2
        exact absurd (by simp [delete_theme, h1]) hne
      · by_cases h3 : name = store.global_theme
        · exact absurd (by simp [delete_theme, h1, h2, h3.symm]) hne
        · exact ⟨h1, h2, h3, by simp [delete_theme, h1, h2, h3]⟩
    · exact absurd (by simp [delete_theme, h1]) hne

/-- C8 witness: on the store {Default, Red, Blue} with global theme Red,
deleting 'Default' and deleting 'Red' are refused with the descriptive
strings and leave the store unchanged, while deleting 'Blue' removes it. -/
theorem delete_theme_guards_witness :
    (delete_theme ⟨["Default", "Red", "Blue"], "Red"⟩ "Default").2
      = ⟨["Default", "Red", "Blue"], "Red"⟩
  ∧ (delete_theme ⟨["Default", "Red", "Blue"], "Red"⟩ "Default").1
      = "Cannot delete the default theme 'Default'"
  ∧ (delete_theme ⟨["Default", "Red", "Blue"], "Red"⟩ "Red").2
      = ⟨["Default", "Red", "Blue"], "Red"⟩
  ∧ (delete_theme ⟨["Default", "Red", "Blue"], "Red"⟩ "Red").1
      = "Cannot delete the global theme 'Red'. Please set a different global theme first."
  ∧ (delete_theme ⟨["Default", "Red", "Blue"], "Red"⟩ "Blue").1
      = "Theme 'Blue' deleted successfully"
  ∧ (delete_theme ⟨["Default", "Red", "Blue"], "Red"⟩ "Blue").2
      = ⟨["Default", "Red"], "Red"⟩ := by
  refine ⟨?_, ?_, ?_, ?_, ?_, ?_⟩
  · exact (delete_theme_guards ⟨["Default", "Red", "Blue"], "Red"⟩ "").1
  · have := (delete_theme_guards ⟨["Default", "Red", "Blue"], "Red"⟩ "").2.1
    simpa using this
  · exact (delete_theme_guards ⟨["Default", "Red", "Blue"], "Red"⟩ "").2.2.1
  · exact (delete_theme_guards ⟨["Default", "Red", "Blue"], "Red"⟩ "").2.2.2.1
      (by decide) (by decide)
  · exact ((delete_theme_guards ⟨["Default", "Red", "Blue"], "Red"⟩ "Blue").2.2.2.2
      (by decide)).2.2.2.1
  · exact ((delete_theme_guards ⟨["Default", "Red", "Blue"], "Red"⟩ "Blue").2.2.2.2
      (by decide)).2.2.2.2

/-! ## C9 — go-live with an out-of-range index -/

/-- C9: when the item selection collaborator faults on an out-of-range index,
`go_live` emits the caught fault as an error string — a normal result payload
that the wait delivers as a value — and no exception escapes; in particular,
against a service whose selection behaves like Python list indexing, index 99
on a 3-item service yields the invalid-index string. -/
theorem go_live_invalid_index :
    ∀ (n : Nat) (i : Int) (env : GoLiveEnv) (e : PyExc) (arrival : ℚ),
      (¬ (0 ≤ i ∧ i < (n : Int)) →
        go_live { set_item := listSetItem n, make_live := .ok () } i
          = "Error going live: list index out of range")
    ∧ (env.set_item i = .error e → go_live env i = s!"Error going live: {e}")
    ∧ (arrival ≤ 10 →
        submitResult (.str (go_live env i)) (some arrival) 10
          = .ok (.str (go_live env i))) := by
  intro n i env e arrival
  refine ⟨?_, ?_, ?_⟩
  · intro h
    simp [go_live, go_live_body, listSetItem, h, bind, Except.bind]
  · intro h
    simp [go_live, go_live_body, h, bind, Except.bind]
  · intro h
    simp [submitResult, eventWait, h]

/-- C9 witness: `go_live(99)` against a 3-item service whose selection faults
like list indexing yields the invalid-index error string, delivered by the
wait as an ordinary payload. -/
theorem go_live_invalid_index_witness :
    go_live { set_item := listSetItem 3, make_live := .ok () } 99
      = "Error going live: list index out of range"
  ∧ submitResult (.str (go_live { set_item := listSetItem 3, make_live := .ok () } 99))
        (some 1) 10
      = .ok (.str (go_live { set_item := listSetItem 3, make_live := .ok () } 99)) := by
  constructor
  · exact (go_live_invalid_index 3 99 { set_item := listSetItem 3, make_live := .ok () }
      "" 1).1 (by omega)
  · exact (go_live_invalid_index 3 99 { set_item := listSetItem 3, make_live := .ok () }
      "" 1).2.2 (by norm_num)

/-! ## C10 — clear-item-theme equals set-item-theme with no theme -/

/-- C10: `clear_item_theme` is the very call `set_item_theme` with `None`: the
two agree on every state and index; for a valid index both clear the item's
theme, mark the service modified and emit the cleared message, and for an
invalid index both leave the state unchanged and emit the invalid-index
message. -/
theorem clear_item_theme_equiv :
    ∀ (st : ServiceState) (i : Int),
      clear_item_theme st i = set_item_theme st i none
    ∧ (∀ item : ItemState, ¬ (i < 0 ∨ (st.items.length : Int) ≤ i) →
        st.items.get? i.toNat = some item →
        set_item_theme st i none
          = (s!"Item {i} ('{item.title}') theme cleared (using service/global theme)",
             { st with items := st.items.set i.toNat { item with theme := none },
                       modified := true }))
    ∧ ((i < 0 ∨ (st.items.length : Int) ≤ i) →
        set_item_theme st i none = (s!"Invalid item index: {i}", st)) := by
  intro st i
  refine ⟨rfl, ?_, ?_⟩
  · intro item hvalid hget
    rw [List.get?_eq_getElem?] at hget
    simp [set_item_theme, hvalid, hget, truthyTheme]
  · intro h
    simp [set_item_theme, h]

/-- C10 witness: on a one-item service, clearing item 0 and setting its theme
to `None` produce the same cleared state and message, and index 5 is refused
the same way by both. -/
theorem clear_item_theme_equiv_witness :
    clear_item_theme ⟨[⟨"Song A", some "Blue"⟩], ["Blue"], false⟩ 0
      = set_item_theme ⟨[⟨"Song A", some "Blue"⟩], ["Blue"], false⟩ 0 none
  ∧ set_item_theme ⟨[⟨"Song A", some "Blue"⟩], ["Blue"], false⟩ 0 none
      = ("Item 0 ('Song A') theme cleared (using service/global theme)",
         ⟨[⟨"Song A", none⟩], ["Blue"], true⟩)
  ∧ set_item_theme ⟨[⟨"Song A", some "Blue"⟩], ["Blue"], false⟩ 5 none
      = ("Invalid item index: 5", ⟨[⟨"Song A", some "Blue"⟩], ["Blue"], false⟩) := by
  refine ⟨?_, ?_, ?_⟩
  · exact (clear_item_theme_equiv ⟨[⟨"Song A", some "Blue"⟩], ["Blue"], false⟩ 0).1
  · have := (clear_item_theme_equiv ⟨[⟨"Song A", some "Blue"⟩], ["Blue"], false⟩ 0).2.1
      ⟨"Song A", some "Blue"⟩ (by decide) rfl
    simpa using this
  · exact (clear_item_theme_equiv ⟨[⟨"Song A", some "Blue"⟩], ["Blue"], false⟩ 5).2.2
      (by decide)
